import Mathlib

/-!
Verification of the modx-proxy bridge: a shallow embedding of the
Session Client (`ModxProxyService` in `src/modx-proxy.ts`, whose source
appears in `test-final-integration.js`) and of the Tool Registry /
Dispatcher (`src/index.ts`).  HTTP round trips are modelled by passing
the outcome of the one network call a method performs as an explicit
argument; JavaScript runtime values carried in JSON bodies are modelled
by an inductive `Json` type with JavaScript truthiness.
-/

namespace ModxProxy

/-- A JSON value as produced by `JSON.parse` (or an already-parsed axios
body).  Numbers are modelled as integers; the claims never depend on
fractional values. -/
inductive Json where
  | null : Json
  | bool : Bool → Json
  | num : Int → Json
  | str : String → Json
  | arr : List Json → Json
  | obj : List (String × Json) → Json

/-- JavaScript truthiness of a JSON value (`null`, `false`, `0`, and the
empty string are falsy; arrays and objects are always truthy). -/
def Json.truthy : Json → Bool
  | .null => false
  | .bool b => b
  | .num n => n != 0
  | .str s => s != ""
  | .arr _ => true
  | .obj _ => true

/-- Truthiness of an optional field: an absent field (`undefined`) is falsy. -/
def truthyOpt : Option Json → Bool
  | some v => v.truthy
  | none => false

/-- Property lookup on a parsed JSON object. -/
def lookupField : List (String × Json) → String → Option Json
  | [], _ => none
  | (k, v) :: rest, key => if k == key then some v else lookupField rest key

/-- JavaScript `String.prototype.toLowerCase`, modelled character-wise
on ASCII (the type names and tool-name inputs of interest are ASCII). -/
def jsToLower (s : String) : String := String.mk (s.data.map Char.toLower)

/-- JavaScript `String.prototype.startsWith`, modelled on character lists. -/
def jsStartsWith (s pre : String) : Bool := pre.data.isPrefixOf s.data

/-- JavaScript `String.prototype.endsWith`, modelled on character lists. -/
def jsEndsWith (s suf : String) : Bool := suf.data.isSuffixOf s.data

/-- JavaScript `x || d` for an optional string `x`: an absent or empty
string falls back to the default. -/
def jsOrElse (x : Option String) (d : String) : String :=
  match x with
  | some s => if s == "" then d else s
  | none => d

/-- JavaScript `a || b` on two optional JSON values. -/
def jsOr (a b : Option Json) : Option Json :=
  match a with
  | some v => if v.truthy then some v else b
  | none => b

/-- `path.replace(/\/$/, '')`: strip one trailing slash. -/
def stripTrailingSlash (s : String) : String :=
  if jsEndsWith s "/" then s.dropRight 1 else s

/-- `normalizePath` from `modx-proxy.ts`: ensure the path starts and ends
with a slash. -/
def normalizePath (path : String) : String :=
  let p := if jsStartsWith path "/" then path else "/" ++ path
  if jsEndsWith p "/" then p else p ++ "/"

/-- One remote processor parameter, as delivered by the discovery call
(`ProcessorList.processors[].parameters[]` in `modx-proxy.ts`).  Fields
that the remote side may omit are `Option`s; `required` is kept as a raw
JSON value because the code tests it with strict `=== true`. -/
structure Parameter where
  name : String
  type : Option String
  required : Option Json
  description : Option String
  default : Option Json

/-- One remote processor descriptor (`ProcessorInfo` in `index.ts`).
The source field `namespace` is a Lean keyword and `class` likewise;
both keep their names via guillemets. -/
structure ProcessorInfo where
  path : String
  «namespace» : String
  description : String
  «class» : String
  file : String
  parameters : List Parameter

/-- The cached discovery snapshot (`ProcessorList` in `modx-proxy.ts`). -/
structure ProcessorList where
  processors : List ProcessorInfo
  total : Int
  generated_at : String

/-- `SessionInfo` from `modx-proxy.ts`.  Timestamps (`new Date()`) are
modelled as abstract clock ticks. -/
structure SessionInfo where
  isAuthenticated : Bool
  baseUrl : Option String
  connectorUrl : Option String
  user : Option Json
  loginTime : Option Nat
  lastActivity : Option Nat

/-- The empty session snapshot `{ isAuthenticated: false }`. -/
def emptySessionInfo : SessionInfo :=
  { isAuthenticated := false, baseUrl := none, connectorUrl := none,
    user := none, loginTime := none, lastActivity := none }

/-- The mutable private state of `ModxProxyService`. -/
structure ServiceState where
  baseUrl : String
  connectorPath : String
  adminPath : String
  modxMcpConnectorPath : String
  isAuthenticated : Bool
  sessionInfo : SessionInfo
  processorCache : Option ProcessorList
  authToken : String

/-- The constructor of `ModxProxyService`, parameterised by the three
configuration strings read from the environment. -/
def initialState (baseUrl connectorPath adminPath : String) : ServiceState :=
  { baseUrl := baseUrl
    connectorPath := normalizePath connectorPath
    adminPath := normalizePath adminPath
    modxMcpConnectorPath := "/assets/components/modx-mcp/connector.php"
    isAuthenticated := false
    sessionInfo := emptySessionInfo
    processorCache := none
    authToken := "" }

/-- The body of one HTTP response as axios hands it over: either already
parsed (`typeof response.data !== 'string'`), or a string that
`JSON.parse` turns into a payload, or a string that is not valid JSON. -/
inductive RespData (α : Type) where
  | parsed : α → RespData α
  | stringJson : α → String → RespData α
  | stringInvalid : String → RespData α

/-- The outcome of one `httpClient.post` call: a 2xx response carrying a
body, or an axios error carrying the optional HTTP status
(`error.response?.status`) and the error message. -/
inductive HttpOutcome (α : Type) where
  | ok : RespData α → HttpOutcome α
  | axiosError : Option Nat → String → HttpOutcome α

/-- The payload obtained by the parse step shared by `login` and
`getProcessors` (`JSON.parse` of a string body, which may throw). -/
def RespData.body {α : Type} : RespData α → Option α
  | .parsed a => some a
  | .stringJson a _ => some a
  | .stringInvalid _ => none

/-- `${error.response?.status}` as interpolated into an error message. -/
def statusStr : Option Nat → String
  | some s => toString s
  | none => "undefined"

/-- `error.response?.status === 401 || error.response?.status === 403`. -/
def statusIs401or403 (status : Option Nat) : Bool :=
  status == some 401 || status == some 403

/-- `this.sessionInfo.lastActivity = new Date()`. -/
def touchActivity (st : ServiceState) (now : Nat) : ServiceState :=
  { st with sessionInfo := { st.sessionInfo with lastActivity := some now } }

/-- The 401/403 error path shared by `getProcessors` and `callProcessor`:
`this.isAuthenticated = false; this.sessionInfo.isAuthenticated = false`.
Note that neither `authToken` nor `sessionInfo.user` is touched. -/
def expireSession (st : ServiceState) : ServiceState :=
  { st with
    isAuthenticated := false
    sessionInfo := { st.sessionInfo with isAuthenticated := false } }

/-- The parsed body of the login response.  `success` is kept as a raw
JSON value (the code only tests its truthiness). -/
structure LoginBody where
  success : Option Json
  message : Option String
  object : Option Json
  data : Option Json

/-- `LoginResult` from `modx-proxy.ts`. -/
structure LoginResult where
  success : Bool
  message : String
  user : Option Json
  sessionInfo : Option SessionInfo

/-- `result.object?.token || ''`: the token is taken from the nested
object when it is a non-empty string, and is the empty string otherwise. -/
def tokenOf (object : Option Json) : String :=
  match object with
  | some (Json.obj fields) =>
    match lookupField fields "token" with
    | some (Json.str t) => t
    | _ => ""
  | _ => ""

/-- `ModxProxyService.login`.  The single HTTP round trip is supplied as
`http`; `now` is the clock read by `new Date()`. -/
def login (st : ServiceState) (username password : String)
    (baseUrl : Option String) (now : Nat)
    (http : HttpOutcome LoginBody) : LoginResult × ServiceState :=
  -- `if (baseUrl) { this.baseUrl = baseUrl.replace(/\/$/, ''); }`
  let st1 := match baseUrl with
    | some b => if b == "" then st else { st with baseUrl := stripTrailingSlash b }
    | none => st
  let connectorUrl := st1.baseUrl ++ st1.connectorPath
  match http with
  | .axiosError _ msg =>
    ({ success := false, message := "Authentication error: " ++ msg,
       user := none, sessionInfo := none },
     { st1 with isAuthenticated := false })
  | .ok d =>
    match d.body with
    | none =>
      -- `throw new Error('Invalid JSON response from MODX')`, caught below
      ({ success := false,
         message := "Authentication error: Invalid JSON response from MODX",
         user := none, sessionInfo := none },
       { st1 with isAuthenticated := false })
    | some body =>
      if truthyOpt body.success then
        let token := tokenOf body.object
        let user := jsOr body.object body.data
        let si : SessionInfo :=
          { isAuthenticated := true
            baseUrl := some st1.baseUrl
            connectorUrl := some connectorUrl
            user := user
            loginTime := some now
            lastActivity := some now }
        ({ success := true, message := "Successfully authenticated with MODX",
           user := user, sessionInfo := some si },
         { st1 with isAuthenticated := true, authToken := token, sessionInfo := si })
      else
        ({ success := false,
           message := jsOrElse body.message "Authentication failed",
           user := none, sessionInfo := none },
         { st1 with isAuthenticated := false })

/-- The `object` of a successful discovery response.  `some` models a
present, truthy object; the typed fields inside are `Option`s because the
code defends each with `|| defaultValue`. -/
structure DiscoveryObject where
  processors : Option (List ProcessorInfo)
  total : Option Int
  generated_at : Option String

/-- The parsed body of the discovery (`data/index`) response. -/
structure DiscoveryBody where
  success : Option Json
  message : Option String
  object : Option DiscoveryObject

/-- `ModxProxyService.getProcessors(refresh)`.  Mirrors the source order:
the cache check comes first, then the authentication check, then the
HTTP round trip with its error handling. -/
def getProcessors (st : ServiceState) (refresh : Bool) (now : Nat)
    (http : HttpOutcome DiscoveryBody) : Except String ProcessorList × ServiceState :=
  match st.processorCache, refresh with
  | some cached, false => (Except.ok cached, st)
  | _, _ =>
    if !st.isAuthenticated then
      (Except.error "Not authenticated. Please login first.", st)
    else
      let st1 := touchActivity st now
      match http with
      | .axiosError status msg =>
        if statusIs401or403 status then
          (Except.error "Session expired. Please login again.", expireSession st1)
        else
          (Except.error ("HTTP error " ++ statusStr status ++ ": " ++ msg), st1)
      | .ok d =>
        match d.body with
        | none =>
          (Except.error
            "Failed to get processors: Invalid JSON response from MODX component", st1)
        | some body =>
          -- `if (result.success && result.object)`
          match body.object, truthyOpt body.success with
          | some obj, true =>
            let pl : ProcessorList :=
              { processors := obj.processors.getD []
                total := obj.total.getD 0
                generated_at := jsOrElse obj.generated_at "unknown" }
            (Except.ok pl, { st1 with processorCache := some pl })
          | _, _ =>
            (Except.error
              ("Failed to get processors: " ++
                jsOrElse body.message "Failed to get processors from MODX component"),
             st1)

/-- The parsed body of a generic processor call, with the fields the
normalisation inspects plus a bag of remaining pass-through fields. -/
structure RemoteResponse where
  success : Option Json
  message : Option Json
  data : Option Json
  errors : Option Json
  object : Option Json
  results : Option Json
  extra : List (String × Json)

/-- `ProcessorResult` as actually returned by `callProcessor`: the object
literal `{ success: ..., message, data, errors, object, results, ...result }`
after the trailing spread has overridden the computed fields. -/
structure ProcessorResult where
  success : Json
  message : Option Json
  data : Option Json
  errors : Option Json
  object : Option Json
  results : Option Json
  extra : List (String × Json)

/-- The result literal of `callProcessor`.  Because `...result` comes
last, every field present on the remote response wins over the computed
one; the computed `success`/`data` only survive when the remote body
lacks those keys. -/
def normalizeResult (r : RemoteResponse) : ProcessorResult :=
  { success :=
      match r.success with
      | some v => v
      | none => Json.bool true   -- computed `result.success !== false`
    message := r.message
    data :=
      match r.data with
      | some v => some v         -- spread override by the original `data`
      | none =>
        -- computed `result.data || result.object || result.results`
        match r.object with
        | some o => if o.truthy then some o else r.results
        | none => r.results
    errors := r.errors
    object := r.object
    results := r.results
    extra := r.extra }

/-- `ModxProxyService.callProcessor`.  `data` is the caller-supplied form
payload (it only feeds the request, never the result shape). -/
def callProcessor (st : ServiceState) («namespace» action : String)
    (data : List (String × Json)) (now : Nat)
    (http : HttpOutcome RemoteResponse) : Except String ProcessorResult × ServiceState :=
  if !st.isAuthenticated then
    (Except.error "Not authenticated. Please login first.", st)
  else
    let st1 := touchActivity st now
    match http with
    | .axiosError status msg =>
      if statusIs401or403 status then
        (Except.error "Session expired. Please login again.", expireSession st1)
      else
        (Except.error ("HTTP error " ++ statusStr status ++ ": " ++ msg), st1)
    | .ok d =>
      let r : RemoteResponse :=
        match d with
        | .parsed a => a
        | .stringJson a _ => a
        | .stringInvalid raw =>
          -- non-JSON body: `result = { success: true, data: response.data, raw: true }`
          { success := some (Json.bool true), message := none,
            data := some (Json.str raw), errors := none, object := none,
            results := none, extra := [("raw", Json.bool true)] }
      (Except.ok (normalizeResult r), st1)

/-- The result of `logout`. -/
structure LogoutResult where
  success : Bool
  message : String

/-- The unconditional local reset performed by both exits of `logout`. -/
def clearSession (st : ServiceState) : ServiceState :=
  { st with
    isAuthenticated := false
    authToken := ""
    sessionInfo := emptySessionInfo }

/-- `ModxProxyService.logout`.  When authenticated it performs the
best-effort `security/logout` processor call (whose outcome is `http`);
both the normal path and the catch path clear the local session and
return `success: true`. -/
def logout (st : ServiceState) (now : Nat)
    (http : HttpOutcome RemoteResponse) : LogoutResult × ServiceState :=
  if st.isAuthenticated then
    match callProcessor st "core" "security/logout" [] now http with
    | (Except.ok _, st1) =>
      ({ success := true, message := "Successfully logged out from MODX" },
       clearSession st1)
    | (Except.error _, st1) =>
      ({ success := true, message := "Logged out (session cleared locally)" },
       clearSession st1)
  else
    ({ success := true, message := "Successfully logged out from MODX" },
     clearSession st)

/-- `ModxProxyService.getSessionInfo` returns a copy of the snapshot. -/
def getSessionInfo (st : ServiceState) : SessionInfo := st.sessionInfo

/-! ## Tool Registry / Dispatcher (`src/index.ts`) -/

/-- One character of `.replace(/[^a-z0-9]/g, '_')` applied after
lower-casing: anything outside `[a-z0-9]` becomes an underscore. -/
def sanitizeChar (c : Char) : Char :=
  if (('a' ≤ c ∧ c ≤ 'z') ∨ ('0' ≤ c ∧ c ≤ '9')) then c else '_'

/-- `s.toLowerCase().replace(/[^a-z0-9]/g, '_')` (ASCII lower-casing, as
the inputs of interest are ASCII). -/
def cleanName (s : String) : String :=
  String.mk (s.data.map (fun c => sanitizeChar c.toLower))

/-- `processorToToolName` from `index.ts`. -/
def processorToToolName («namespace» action : String) : String :=
  "modx_" ++ cleanName «namespace» ++ "_" ++ cleanName action

/-- The linear search of `toolNameToProcessor`: the FIRST cached
processor whose forward-mapped name equals the queried tool name wins. -/
def findProcessorByToolName (procs : List ProcessorInfo) (toolName : String) :
    Option (String × String) :=
  match procs with
  | [] => none
  | p :: rest =>
    if processorToToolName p.«namespace» p.path == toolName then
      some (p.«namespace», p.path)
    else
      findProcessorByToolName rest toolName

/-- `toolNameToProcessor` from `index.ts`, as a function of the
module-level `processorsCache`.  (The source also computes
`toolName.substring(5)` into a local that is never used.) -/
def toolNameToProcessor (processorsCache : Option (List ProcessorInfo))
    (toolName : String) : Option (String × String) :=
  if !jsStartsWith toolName "modx_" then none
  else
    match processorsCache with
    | some procs => findProcessorByToolName procs toolName
    | none => none

/-- `modxTypeToJsonSchemaType` from `index.ts`. -/
def modxTypeToJsonSchemaType (modxType : String) : String :=
  match jsToLower modxType with
  | "integer" => "integer"
  | "int" => "integer"
  | "boolean" => "boolean"
  | "bool" => "boolean"
  | "string" => "string"
  | "text" => "string"
  | "array" => "array"
  | "object" => "object"
  | _ => "string"

/-- One generated JSON-Schema property. -/
structure PropSchema where
  type : String
  description : String
  default : Option Json

/-- The generated input schema.  The fixed session-info tool carries
neither a `required` list nor `additionalProperties`, hence the options. -/
structure ToolInputSchema where
  properties : List (String × PropSchema)
  required : Option (List String)
  additionalProperties : Option Bool

/-- A tool descriptor as returned over the transport. -/
structure Tool where
  name : String
  description : String
  inputSchema : ToolInputSchema

/-- The exclusion test of `createProcessorTool`:
`!param.name || param.name === '_permission_check' || param.name.startsWith('_')`. -/
def excludedParam (p : Parameter) : Bool :=
  p.name == "" || p.name == "_permission_check" || jsStartsWith p.name "_"

/-- `param.default !== undefined && param.default !== null && param.default !== ''`. -/
def attachableDefault : Option Json → Bool
  | none => false
  | some Json.null => false
  | some (Json.str s) => s != ""
  | some _ => true

/-- `param.required === true` (strict equality with the boolean `true`). -/
def isExactlyTrue : Option Json → Bool
  | some (Json.bool true) => true
  | _ => false

/-- The property object built for one parameter inside
`createProcessorTool` (type mapping, description fallback, and the
conditionally attached default). -/
def makeParamProperty (p : Parameter) : PropSchema :=
  { type := modxTypeToJsonSchemaType (jsOrElse p.type "string")
    description := jsOrElse p.description ("Parameter: " ++ p.name)
    default := if attachableDefault p.default then p.default else none }

/-- JavaScript property assignment `properties[key] = v` on an object
modelled as an ordered association list: an existing key keeps its
position but gets the new value; a new key is appended. -/
def jsAssign (props : List (String × PropSchema)) (key : String) (v : PropSchema) :
    List (String × PropSchema) :=
  match props with
  | [] => [(key, v)]
  | (k, v') :: rest =>
    if k == key then (k, v) :: rest else (k, v') :: jsAssign rest key v

/-- The parameter loop of `createProcessorTool`, threading the
`properties` object and the `required` array exactly as the `for` loop
does. -/
def processParamsAux (ps : List Parameter)
    (properties : List (String × PropSchema)) (required : List String) :
    List (String × PropSchema) × List String :=
  match ps with
  | [] => (properties, required)
  | p :: rest =>
    if excludedParam p then processParamsAux rest properties required
    else
      processParamsAux rest (jsAssign properties p.name (makeParamProperty p))
        (if isExactlyTrue p.required then required ++ [p.name] else required)

/-- The `properties`/`required` accumulation of `createProcessorTool`. -/
def processParams (ps : List Parameter) : List (String × PropSchema) × List String :=
  processParamsAux ps [] []

/-- `createProcessorTool` from `index.ts`.  (The guard
`processor.parameters && Array.isArray(processor.parameters)` is vacuous
here because `parameters` is always a list in the model.) -/
def createProcessorTool (processor : ProcessorInfo) : Tool :=
  let pr := processParams processor.parameters
  { name := processorToToolName processor.«namespace» processor.path
    description :=
      processor.description ++ " (" ++ processor.«namespace» ++ "/" ++ processor.path ++ ")"
    inputSchema :=
      { properties := pr.1
        required := some pr.2
        additionalProperties := some true } }

/-- The fixed `modx_get_session_info` base tool. -/
def sessionInfoTool : Tool :=
  { name := "modx_get_session_info"
    description := "Get information about current MODX session"
    inputSchema := { properties := [], required := none, additionalProperties := none } }

/-- `getAllTools` from `index.ts`.  Takes the service state plus the
module-level `processorsCache`; when a discovery call is needed its HTTP
outcome is `http`.  Returns the tool list, the new `processorsCache`,
and the (possibly mutated) service state. -/
def getAllTools (svc : ServiceState) (processorsCache : Option (List ProcessorInfo))
    (now : Nat) (http : HttpOutcome DiscoveryBody) :
    List Tool × Option (List ProcessorInfo) × ServiceState :=
  let baseTools : List Tool := [sessionInfoTool]
  if !(getSessionInfo svc).isAuthenticated then
    (baseTools, processorsCache, svc)
  else
    match processorsCache with
    | some procs =>
      (baseTools ++ procs.map createProcessorTool, some procs, svc)
    | none =>
      match getProcessors svc false now http with
      | (Except.ok pl, svc') =>
        (baseTools ++ pl.processors.map createProcessorTool, some pl.processors, svc')
      | (Except.error _, svc') =>
        -- `catch`: degrade to the base tools; the cache stays unassigned
        (baseTools, none, svc')

/-- The whole server-side mutable state: the service singleton plus the
module-level `processorsCache` of `index.ts`. -/
structure ServerState where
  svc : ServiceState
  processorsCache : Option (List ProcessorInfo)

/-- The `tools/list` request handler. -/
def handleListTools (st : ServerState) (now : Nat)
    (http : HttpOutcome DiscoveryBody) : List Tool × ServerState :=
  let r := getAllTools st.svc st.processorsCache now http
  (r.1, { svc := r.2.2, processorsCache := r.2.1 })

/-- The payload a `tools/call` response serialises (before
`JSON.stringify`): the session snapshot, a forwarded processor result,
or the structured failure object built in the `catch` block. -/
inductive ToolCallOutcome where
  | sessionSnapshot : SessionInfo → ToolCallOutcome
  | processorOutcome : ProcessorResult → ToolCallOutcome
  | failure : String → String → List (String × Json) → ToolCallOutcome

/-- The `tools/call` request handler of `index.ts`.  `http` is the
outcome of the one processor call it may forward. -/
def handleCallTool (st : ServerState) (name : String)
    (args : List (String × Json)) (now : Nat)
    (http : HttpOutcome RemoteResponse) : ToolCallOutcome × ServerState :=
  if name == "modx_get_session_info" then
    (ToolCallOutcome.sessionSnapshot (getSessionInfo st.svc), st)
  else if jsStartsWith name "modx_" then
    match toolNameToProcessor st.processorsCache name with
    | some (ns, action) =>
      match callProcessor st.svc ns action args now http with
      | (Except.ok r, svc') =>
        (ToolCallOutcome.processorOutcome r, { st with svc := svc' })
      | (Except.error m, svc') =>
        (ToolCallOutcome.failure m name args, { st with svc := svc' })
    | none =>
      (ToolCallOutcome.failure ("Unknown tool: " ++ name) name args, st)
  else
    (ToolCallOutcome.failure ("Unknown tool: " ++ name) name args, st)

/-! ## Test fixtures: concrete states and bodies used by witnesses and
counterexamples -/

/-- A sample cached discovery snapshot. -/
def samplePL : ProcessorList :=
  { processors := [], total := 0, generated_at := "2024-01-01" }

/-- A sample logged-in user payload. -/
def sampleUser : Json := Json.obj [("username", Json.str "admin")]

/-- A representative authenticated service state (token `T1`, no cache). -/
def authState : ServiceState :=
  { baseUrl := "http://example.test"
    connectorPath := "/connectors/"
    adminPath := "/manager/"
    modxMcpConnectorPath := "/assets/components/modx-mcp/connector.php"
    isAuthenticated := true
    sessionInfo :=
      { isAuthenticated := true
        baseUrl := some "http://example.test"
        connectorUrl := some "http://example.test/connectors/"
        user := some sampleUser
        loginTime := some 0
        lastActivity := some 0 }
    processorCache := none
    authToken := "T1" }

/-- An unauthenticated service state that still holds a cache snapshot
(reachable e.g. by a successful discovery followed by `logout`, which
never clears `processorCache`). -/
def staleCacheState : ServiceState :=
  { authState with
    isAuthenticated := false
    sessionInfo := emptySessionInfo
    processorCache := some samplePL
    authToken := "" }

/-! ## C1 -/

/-- C1 (counterexample): the claim says `getProcessors` fails with an
"unauthenticated" error for every unauthenticated state regardless of
the cache; but the cache check precedes the authentication check, so an
unauthenticated state holding a cache snapshot gets the snapshot back
successfully. -/
theorem c1_counterexample :
    staleCacheState.isAuthenticated = false
    ∧ getProcessors staleCacheState false 0 (HttpOutcome.axiosError none "network down")
        = (Except.ok samplePL, staleCacheState) :=
  ⟨rfl, rfl⟩

/-- C1 (amended): with `authenticated == false`, `getProcessors` fails
with the "unauthenticated" error exactly when no cache snapshot exists
or `forceRefresh` is true; when a snapshot exists and `forceRefresh` is
false it returns the snapshot without any authentication check, leaving
the state unchanged. -/
theorem c1_amended (st : ServiceState) (refresh : Bool) (now : Nat)
    (http : HttpOutcome DiscoveryBody) (hauth : st.isAuthenticated = false) :
    (st.processorCache = none ∨ refresh = true →
      getProcessors st refresh now http
        = (Except.error "Not authenticated. Please login first.", st))
    ∧ (∀ pl, st.processorCache = some pl → refresh = false →
      getProcessors st refresh now http = (Except.ok pl, st)) := by
  constructor
  · rintro (hc | hr)
    · simp [getProcessors, hc, hauth]
    · subst hr
      cases hc : st.processorCache <;> simp [getProcessors, hc, hauth]
  · intro pl hc hr
    subst hr
    simp [getProcessors, hc]

/-- C1 (witness): `c1_amended` applied to a concrete unauthenticated
state holding a cache snapshot. -/
theorem c1_witness :
    getProcessors staleCacheState false 0 (HttpOutcome.axiosError none "network down")
      = (Except.ok samplePL, staleCacheState) :=
  (c1_amended staleCacheState false 0 (HttpOutcome.axiosError none "network down")
    rfl).2 samplePL rfl rfl

/-! ## C3 -/

/-- C3 (counterexample): a 401 during `getProcessors` flips the
authentication flags and surfaces the session-expired error, but the
auth token and the user payload populated by the last login are NOT
cleared, contradicting the claim that the derived session fields are
cleared. -/
theorem c3_counterexample :
    (getProcessors authState false 1 (HttpOutcome.axiosError (some 401) "Unauthorized")).1
      = Except.error "Session expired. Please login again."
    ∧ (getProcessors authState false 1 (HttpOutcome.axiosError (some 401) "Unauthorized")).2.isAuthenticated
      = false
    ∧ (getProcessors authState false 1 (HttpOutcome.axiosError (some 401) "Unauthorized")).2.authToken
      = "T1"
    ∧ (getProcessors authState false 1 (HttpOutcome.axiosError (some 401) "Unauthorized")).2.sessionInfo.user
      = some sampleUser
    ∧ "T1" ≠ "" :=
  ⟨rfl, rfl, rfl, rfl, by decide⟩

/-- C3 (amended): an HTTP 401/403 during `listOperations` or
`invokeOperation` immediately sets `authenticated` to `false` (both the
private flag and the snapshot flag) and surfaces the session-expired
error, but leaves `authToken` and `user` in place; the invariant
`authenticated == true → token/user from the last login` is preserved
because `authenticated` is false afterwards. -/
theorem c3_amended :
    (∀ (st : ServiceState) (refresh : Bool) (now status : Nat) (msg : String),
      st.isAuthenticated = true → (st.processorCache = none ∨ refresh = true) →
      status = 401 ∨ status = 403 →
      getProcessors st refresh now (HttpOutcome.axiosError (some status) msg)
        = (Except.error "Session expired. Please login again.",
           expireSession (touchActivity st now)))
    ∧ (∀ (st : ServiceState) (ns action : String) (args : List (String × Json))
        (now status : Nat) (msg : String),
      st.isAuthenticated = true → status = 401 ∨ status = 403 →
      callProcessor st ns action args now (HttpOutcome.axiosError (some status) msg)
        = (Except.error "Session expired. Please login again.",
           expireSession (touchActivity st now)))
    ∧ (∀ (st : ServiceState) (now : Nat),
      (expireSession (touchActivity st now)).isAuthenticated = false
      ∧ (expireSession (touchActivity st now)).sessionInfo.isAuthenticated = false
      ∧ (expireSession (touchActivity st now)).authToken = st.authToken
      ∧ (expireSession (touchActivity st now)).sessionInfo.user = st.sessionInfo.user) := by
  refine ⟨?_, ?_, ?_⟩
  · intro st refresh now status msg hauth hcr hst
    have hs : statusIs401or403 (some status) = true := by
      rcases hst with h | h <;> subst h <;> decide
    rcases hcr with hc | hr
    · simp [getProcessors, hc, hauth, hs]
    · subst hr
      cases hc : st.processorCache <;> simp [getProcessors, hc, hauth, hs]
  · intro st ns action args now status msg hauth hst
    have hs : statusIs401or403 (some status) = true := by
      rcases hst with h | h <;> subst h <;> decide
    simp [callProcessor, hauth, hs]
  · intro st now
    exact ⟨rfl, rfl, rfl, rfl⟩

/-- C3 (witness): `c3_amended` applied to the concrete authenticated
state and a 401 response. -/
theorem c3_witness :
    getProcessors authState false 1 (HttpOutcome.axiosError (some 401) "Unauthorized")
      = (Except.error "Session expired. Please login again.",
         expireSession (touchActivity authState 1)) :=
  c3_amended.1 authState false 1 401 "Unauthorized" rfl (Or.inl rfl) (Or.inl rfl)

/-! ## C4 -/

/-- C4: the tool-name mapping lower-cases namespace and path, replaces
every character outside `[a-z0-9]` with an underscore, and joins them as
`modx_<namespace>_<path>`; in particular `("Core", "Resource/GetList")`
and `("core", "resource_getlist")` collide to the same generated name. -/
theorem c4_toolname :
    (∀ ns p : String,
      processorToToolName ns p = "modx_" ++ cleanName ns ++ "_" ++ cleanName p)
    ∧ (∀ s : String,
      (cleanName s).data = s.data.map (fun c => sanitizeChar c.toLower))
    ∧ processorToToolName "Core" "Resource/GetList" = "modx_core_resource_getlist"
    ∧ processorToToolName "core" "resource_getlist" = "modx_core_resource_getlist" :=
  ⟨fun _ _ => rfl, fun _ => rfl, rfl, rfl⟩

/-! ## C7 -/

/-- Characterisation of a login attempt the remote system rejects: a
transport/HTTP failure, a non-JSON body, or a parsed body whose
`success` field is falsy. -/
def loginRejected (http : HttpOutcome LoginBody) : Bool :=
  match http with
  | .axiosError _ _ => true
  | .ok d =>
    match d.body with
    | none => true
    | some body => !truthyOpt body.success

/-- The login body of a successful authentication carrying token `T1`. -/
def goodLoginBody : LoginBody :=
  { success := some (Json.bool true)
    message := none
    object := some (Json.obj [("token", Json.str "T1"), ("username", Json.str "admin")])
    data := none }

/-- The login body of a rejected authentication. -/
def badLoginBody : LoginBody :=
  { success := some (Json.bool false)
    message := some "Login failed"
    object := none
    data := none }

/-- The service state after one successful login from the initial state. -/
def stAfterLogin : ServiceState :=
  (login (initialState "http://example.test" "/connectors/" "/manager/")
    "admin" "adminadmin" none 0 (HttpOutcome.ok (RespData.parsed goodLoginBody))).2

/-- C7 (counterexample): after a successful login (token `T1`), a second
login with rejected credentials returns `success == false` and flips the
private flag, but the auth token from the previous login is retained in
the session state, contradicting "no auth token is retained". -/
theorem c7_counterexample :
    stAfterLogin.authToken = "T1"
    ∧ (login stAfterLogin "admin" "wrong" none 1
        (HttpOutcome.ok (RespData.parsed badLoginBody))).1.success = false
    ∧ (login stAfterLogin "admin" "wrong" none 1
        (HttpOutcome.ok (RespData.parsed badLoginBody))).2.isAuthenticated = false
    ∧ (login stAfterLogin "admin" "wrong" none 1
        (HttpOutcome.ok (RespData.parsed badLoginBody))).2.authToken = "T1"
    ∧ "T1" ≠ "" :=
  ⟨rfl, rfl, rfl, rfl, by decide⟩

/-- C7 (amended): every rejected `authenticate` returns
`success == false` and sets the private `isAuthenticated` flag to
`false`, but neither the auth token nor the session snapshot is touched,
so a token retained from a previous successful login survives. -/
theorem c7_amended (st : ServiceState) (username password : String)
    (baseUrl : Option String) (now : Nat) (http : HttpOutcome LoginBody)
    (hrej : loginRejected http = true) :
    (login st username password baseUrl now http).1.success = false
    ∧ (login st username password baseUrl now http).2.isAuthenticated = false
    ∧ (login st username password baseUrl now http).2.authToken = st.authToken
    ∧ (login st username password baseUrl now http).2.sessionInfo = st.sessionInfo := by
  cases http with
  | axiosError status msg =>
    cases baseUrl with
    | none => exact ⟨rfl, rfl, rfl, rfl⟩
    | some b =>
      by_cases hb : b == ""
      · simp [login, hb]
      · simp [login, hb]
  | ok d =>
    cases d with
    | parsed body =>
      have hs : truthyOpt body.success = false := by
        simpa [loginRejected, RespData.body] using hrej
      cases baseUrl with
      | none => simp [login, RespData.body, hs]
      | some b =>
        by_cases hb : b == ""
        · simp [login, RespData.body, hs, hb]
        · simp [login, RespData.body, hs, hb]
    | stringJson body raw =>
      have hs : truthyOpt body.success = false := by
        simpa [loginRejected, RespData.body] using hrej
      cases baseUrl with
      | none => simp [login, RespData.body, hs]
      | some b =>
        by_cases hb : b == ""
        · simp [login, RespData.body, hs, hb]
        · simp [login, RespData.body, hs, hb]
    | stringInvalid raw =>
      cases baseUrl with
      | none => exact ⟨rfl, rfl, rfl, rfl⟩
      | some b =>
        by_cases hb : b == ""
        · simp [login, RespData.body, hb]
        · simp [login, RespData.body, hb]

/-- C7 (witness): `c7_amended` applied to the post-login state and a
parsed rejection body. -/
theorem c7_witness :
    (login stAfterLogin "admin" "wrong" none 1
      (HttpOutcome.ok (RespData.parsed badLoginBody))).1.success = false
    ∧ (login stAfterLogin "admin" "wrong" none 1
      (HttpOutcome.ok (RespData.parsed badLoginBody))).2.authToken
        = stAfterLogin.authToken :=
  ⟨(c7_amended stAfterLogin "admin" "wrong" none 1
      (HttpOutcome.ok (RespData.parsed badLoginBody)) rfl).1,
   (c7_amended stAfterLogin "admin" "wrong" none 1
      (HttpOutcome.ok (RespData.parsed badLoginBody)) rfl).2.2.1⟩

/-! ## C8 -/

/-- C8: `logout` always returns `success == true` — whatever the remote
logout call does — and unconditionally resets the local session:
`authenticated` becomes false, the auth token becomes empty, and the
session snapshot is cleared. -/
theorem c8_logout (st : ServiceState) (now : Nat) (http : HttpOutcome RemoteResponse) :
    (logout st now http).1.success = true
    ∧ (logout st now http).2.isAuthenticated = false
    ∧ (logout st now http).2.authToken = ""
    ∧ (logout st now http).2.sessionInfo = emptySessionInfo := by
  unfold logout
  by_cases h : st.isAuthenticated
  · simp only [h, if_true]
    rcases hc : callProcessor st "core" "security/logout" [] now http with ⟨res, st1⟩
    cases res <;> simp [clearSession]
  · simp [h, clearSession]

/-! ## C2 -/

/-- Every generated tool name passes the `startsWith('modx_')` guard. -/
theorem toolName_startsWith_modx (ns p : String) :
    jsStartsWith (processorToToolName ns p) "modx_" = true := by
  suffices h : ∀ a b : String, jsStartsWith ("modx_" ++ a ++ "_" ++ b) "modx_" = true by
    exact h (cleanName ns) (cleanName p)
  intro a b
  obtain ⟨la⟩ := a
  obtain ⟨lb⟩ := b
  show List.isPrefixOf "modx_".data ((("modx_".data ++ la) ++ "_".data) ++ lb) = true
  rw [List.isPrefixOf_iff_prefix]
  exact List.IsPrefix.trans
    (List.IsPrefix.trans (List.prefix_append _ _) (List.prefix_append _ _))
    (List.prefix_append _ _)

/-- A cached processor descriptor whose forward-mapped name collides
with `procB`. -/
def procA : ProcessorInfo :=
  { path := "resource/getlist", «namespace» := "core",
    description := "list resources", «class» := "", file := "", parameters := [] }

/-- A second descriptor mapping to the same tool name as `procA`. -/
def procB : ProcessorInfo :=
  { path := "resource_getlist", «namespace» := "core",
    description := "underscore variant", «class» := "", file := "", parameters := [] }

/-- C2 (counterexample): with a cache containing both colliding
descriptors, reverse-resolving the tool name of the SECOND one returns
the namespace/path of the FIRST match, not `(d.namespace, d.path)`. -/
theorem c2_counterexample :
    procB ∈ [procA, procB]
    ∧ toolNameToProcessor (some [procA, procB])
        (processorToToolName procB.«namespace» procB.path)
        = some ("core", "resource/getlist")
    ∧ some ("core", "resource/getlist") ≠ some (procB.«namespace», procB.path) :=
  ⟨by simp, rfl, by decide⟩

/-- C2 (amended): reverse-resolving `toToolName(d.namespace, d.path)`
against a cache containing `d` yields the namespace/path of the first
cached descriptor whose forward-mapped name matches; it equals
`(d.namespace, d.path)` whenever no other cached descriptor collides
with `d` under the lossy name mapping. -/
theorem c2_amended (cache : List ProcessorInfo) (d : ProcessorInfo)
    (hmem : d ∈ cache)
    (huniq : ∀ d' ∈ cache,
      processorToToolName d'.«namespace» d'.path
        = processorToToolName d.«namespace» d.path →
      d'.«namespace» = d.«namespace» ∧ d'.path = d.path) :
    toolNameToProcessor (some cache) (processorToToolName d.«namespace» d.path)
      = some (d.«namespace», d.path) := by
  unfold toolNameToProcessor
  rw [toolName_startsWith_modx]
  simp only [Bool.not_true, Bool.false_eq_true, if_false]
  induction cache with
  | nil => cases hmem
  | cons p rest ih =>
    unfold findProcessorByToolName
    by_cases h : (processorToToolName p.«namespace» p.path
        == processorToToolName d.«namespace» d.path) = true
    · simp only [h, if_true]
      obtain ⟨h1, h2⟩ := huniq p (List.mem_cons_self p rest) (eq_of_beq h)
      rw [h1, h2]
    · simp only [h, if_false]
      have hdr : d ∈ rest := by
        rcases List.mem_cons.mp hmem with heq | hr
        · refine absurd ?_ h
          subst heq
          exact beq_self_eq_true _
        · exact hr
      exact ih hdr (fun d' hd' => huniq d' (List.mem_cons_of_mem p hd'))

/-- C2 (witness): `c2_amended` applied to a singleton cache (no
collision), where the round trip does return the original pair. -/
theorem c2_witness :
    toolNameToProcessor (some [procA])
      (processorToToolName procA.«namespace» procA.path)
      = some (procA.«namespace», procA.path) :=
  c2_amended [procA] procA (by simp)
    (by
      intro d' hd' _
      rw [List.mem_singleton.mp hd']
      exact ⟨rfl, rfl⟩)

/-! ## C5 -/

/-- Assigning a fresh key appends it to the property list. -/
theorem jsAssign_not_mem (props : List (String × PropSchema)) (key : String)
    (v : PropSchema) (h : key ∉ props.map Prod.fst) :
    jsAssign props key v = props ++ [(key, v)] := by
  induction props with
  | nil => rfl
  | cons kv rest ih =>
    obtain ⟨k, v'⟩ := kv
    have hk : (k == key) = false := by
      simp only [List.map_cons, List.mem_cons, not_or] at h
      exact beq_eq_false_iff_ne.mpr (fun he => h.1 he.symm)
    simp only [jsAssign, hk, Bool.false_eq_true, if_false, List.cons_append,
      List.cons.injEq, true_and]
    exact ih (fun hm => h (List.mem_cons_of_mem _ hm))

/-- Characterisation of the parameter loop of `createProcessorTool` when
the non-excluded parameter names are pairwise distinct and do not clash
with the accumulator: the `properties` object gets exactly one entry per
non-excluded parameter in source order, and `required` gets exactly the
names whose `required` flag is strictly `true`. -/
theorem processParamsAux_spec (ps : List Parameter) :
    ∀ (properties : List (String × PropSchema)) (required : List String),
    (∀ p ∈ ps, excludedParam p = false → p.name ∉ properties.map Prod.fst) →
    ((ps.filter (fun p => !excludedParam p)).map Parameter.name).Nodup →
    processParamsAux ps properties required
      = (properties
          ++ (ps.filter (fun p => !excludedParam p)).map
              (fun p => (p.name, makeParamProperty p)),
         required
          ++ ((ps.filter (fun p => !excludedParam p)).filter
              (fun p => isExactlyTrue p.required)).map Parameter.name) := by
  induction ps with
  | nil => intro properties required _ _; simp [processParamsAux]
  | cons p rest ih =>
    intro properties required hfresh hnd
    by_cases he : excludedParam p = true
    · have hfilter : List.filter (fun q => !excludedParam q) (p :: rest)
          = List.filter (fun q => !excludedParam q) rest := by
        simp [List.filter_cons, he]
      rw [hfilter] at hnd ⊢
      simp only [processParamsAux, he, if_true]
      exact ih properties required
        (fun q hq hqe => hfresh q (List.mem_cons_of_mem p hq) hqe) hnd
    · have he' : excludedParam p = false := by simpa using he
      have hfilter : List.filter (fun q => !excludedParam q) (p :: rest)
          = p :: List.filter (fun q => !excludedParam q) rest := by
        simp [List.filter_cons, he']
      rw [hfilter] at hnd ⊢
      simp only [List.map_cons, List.nodup_cons] at hnd
      obtain ⟨hpnotin, hndrest⟩ := hnd
      have hfr : ∀ q ∈ rest, excludedParam q = false →
          q.name ∉ (properties ++ [(p.name, makeParamProperty p)]).map Prod.fst := by
        intro q hq hqe
        simp only [List.map_append, List.map_cons, List.map_nil, List.mem_append,
          List.mem_cons, List.not_mem_nil, or_false, not_or]
        refine ⟨hfresh q (List.mem_cons_of_mem p hq) hqe, ?_⟩
        intro hname
        exact hpnotin (hname ▸ List.mem_map_of_mem Parameter.name
          (List.mem_filter.mpr ⟨hq, by simp [hqe]⟩))
      have hstep := ih (properties ++ [(p.name, makeParamProperty p)])
        (if isExactlyTrue p.required = true then required ++ [p.name] else required)
        hfr hndrest
      simp only [processParamsAux, he', Bool.false_eq_true, if_false]
      rw [jsAssign_not_mem properties p.name (makeParamProperty p)
        (hfresh p (List.mem_cons_self p rest) he')]
      rw [hstep]
      by_cases hr : isExactlyTrue p.required = true <;>
        simp [hr, List.filter_cons, List.append_assoc]

/-- A parameter named `id` with integer type, marked required. -/
def dupParam1 : Parameter :=
  { name := "id", type := some "int", required := some (Json.bool true),
    description := some "first", default := none }

/-- A second parameter also named `id`. -/
def dupParam2 : Parameter :=
  { name := "id", type := some "string", required := none,
    description := some "second", default := none }

/-- A descriptor carrying two parameters with the same name. -/
def dupDescriptor : ProcessorInfo :=
  { path := "thing/update", «namespace» := "core", description := "d",
    «class» := "", file := "", parameters := [dupParam1, dupParam2] }

/-- A parameter with an empty name (excluded by the code via
`!param.name` but not by the exclusion rule the claim states). -/
def emptyNameParam : Parameter :=
  { name := "", type := some "string", required := none,
    description := none, default := none }

/-- A descriptor carrying only the empty-named parameter. -/
def emptyNameDescriptor : ProcessorInfo :=
  { path := "thing/list", «namespace» := "core", description := "d",
    «class» := "", file := "", parameters := [emptyNameParam] }

/-- C5 (counterexample): two non-excluded parameters sharing one name
produce a single schema property (JavaScript object assignment
overwrites), and a parameter with an empty name — not excluded by the
rule the claim states — produces no property at all, so the schema does
not contain exactly one property per non-excluded parameter. -/
theorem c5_counterexample :
    ((createProcessorTool dupDescriptor).inputSchema.properties.length = 1
      ∧ (dupDescriptor.parameters.filter
          (fun p => !(jsStartsWith p.name "_" || p.name == "_permission_check"))).length
        = 2)
    ∧ ((createProcessorTool emptyNameDescriptor).inputSchema.properties.length = 0
      ∧ (emptyNameDescriptor.parameters.filter
          (fun p => !(jsStartsWith p.name "_" || p.name == "_permission_check"))).length
        = 1) :=
  ⟨⟨rfl, rfl⟩, ⟨rfl, rfl⟩⟩

/-- C5 (amended): provided the non-excluded parameter names are pairwise
distinct (non-excluded meaning: name non-empty, not the reserved
`_permission_check`, and not starting with an underscore), the generated
schema has exactly one property per non-excluded parameter, in order,
with the enumerated type mapping, the conditional default, and the
`required` list holding exactly the names whose flag is strictly `true`. -/
theorem c5_amended (d : ProcessorInfo)
    (hnd : ((d.parameters.filter (fun p => !excludedParam p)).map Parameter.name).Nodup) :
    (createProcessorTool d).inputSchema.properties
      = (d.parameters.filter (fun p => !excludedParam p)).map
          (fun p => (p.name, makeParamProperty p))
    ∧ (createProcessorTool d).inputSchema.required
      = some (((d.parameters.filter (fun p => !excludedParam p)).filter
          (fun p => isExactlyTrue p.required)).map Parameter.name)
    ∧ (∀ p : Parameter, makeParamProperty p
        = { type := modxTypeToJsonSchemaType (jsOrElse p.type "string")
            description := jsOrElse p.description ("Parameter: " ++ p.name)
            default := if attachableDefault p.default then p.default else none })
    ∧ modxTypeToJsonSchemaType "integer" = "integer"
    ∧ modxTypeToJsonSchemaType "int" = "integer"
    ∧ modxTypeToJsonSchemaType "boolean" = "boolean"
    ∧ modxTypeToJsonSchemaType "bool" = "boolean"
    ∧ modxTypeToJsonSchemaType "string" = "string"
    ∧ modxTypeToJsonSchemaType "text" = "string"
    ∧ modxTypeToJsonSchemaType "array" = "array"
    ∧ modxTypeToJsonSchemaType "object" = "object"
    ∧ modxTypeToJsonSchemaType "mixed" = "string"
    ∧ (createProcessorTool d).inputSchema.additionalProperties = some true := by
  have hspec := processParamsAux_spec d.parameters [] [] (by simp) hnd
  refine ⟨?_, ?_, fun _ => rfl, rfl, rfl, rfl, rfl, rfl, rfl, rfl, rfl, rfl, rfl⟩
  · have h1 : (createProcessorTool d).inputSchema.properties
        = (processParamsAux d.parameters [] []).1 := rfl
    rw [h1, hspec]
    simp
  · have h2 : (createProcessorTool d).inputSchema.required
        = some (processParamsAux d.parameters [] []).2 := rfl
    rw [h2, hspec]
    simp

/-- A realistic parameter list: one required integer with a default, one
internal parameter that is excluded, and one untyped optional one. -/
def sampleParams : List Parameter :=
  [ { name := "limit", type := some "int", required := some (Json.bool true),
      description := some "max rows", default := some (Json.num 20) },
    { name := "_permission_check", type := some "string", required := none,
      description := none, default := none },
    { name := "query", type := some "mixed", required := some (Json.str "1"),
      description := none, default := some (Json.str "") } ]

/-- A realistic processor descriptor. -/
def sampleDescriptor : ProcessorInfo :=
  { path := "resource/getlist", «namespace» := "core",
    description := "List resources", «class» := "modResourceGetListProcessor",
    file := "getlist.class.php", parameters := sampleParams }

/-- C5 (witness): `c5_amended` applied to the concrete descriptor. -/
theorem c5_witness :
    (createProcessorTool sampleDescriptor).inputSchema.properties
      = (sampleDescriptor.parameters.filter (fun p => !excludedParam p)).map
          (fun p => (p.name, makeParamProperty p))
    ∧ (createProcessorTool sampleDescriptor).inputSchema.required
      = some (((sampleDescriptor.parameters.filter (fun p => !excludedParam p)).filter
          (fun p => isExactlyTrue p.required)).map Parameter.name) :=
  ⟨(c5_amended sampleDescriptor (by decide)).1,
   (c5_amended sampleDescriptor (by decide)).2.1⟩

/-! ## C6 -/

/-- A well-formed remote body whose `data` field is present but `null`
while `object` is populated. -/
def rNullData : RemoteResponse :=
  { success := some (Json.bool true), message := none,
    data := some Json.null, errors := none,
    object := some (Json.obj [("id", Json.num 1)]), results := none, extra := [] }

/-- C6 (counterexample): when the remote response carries a present but
null `data` field alongside a populated `object` field, the returned
`data` is that null — the trailing `...result` spread overrides the
computed first-populated-field fallback — so `data` is NOT sourced from
the first populated field among `data`, `object`, `results`. -/
theorem c6_counterexample :
    (callProcessor authState "core" "resource/getlist" [] 1
        (HttpOutcome.ok (RespData.parsed rNullData))).1
      = Except.ok (normalizeResult rNullData)
    ∧ (normalizeResult rNullData).data = some Json.null
    ∧ Json.truthy Json.null = false
    ∧ truthyOpt rNullData.object = true
    ∧ (normalizeResult rNullData).data ≠ rNullData.object :=
  ⟨rfl, rfl, rfl, rfl, by simp [normalizeResult, rNullData]⟩

/-- C6 (amended): for every well-formed HTTP response to
`invokeOperation`, the result `success` equals the remote `success`
value when that field is present and defaults to `true` when absent;
`data` equals the remote `data` value whenever that field is present
(even when null or falsy, because the raw pass-through spread overrides
the computed fallback), and only when `data` is absent falls back to
`object` if populated, else to `results`; all original remote fields
(`message`, `errors`, `object`, `results` and the extra bag) are passed
through unchanged; and a non-JSON body yields a success result carrying
the raw body, not an error. -/
theorem c6_amended (st : ServiceState) (ns action : String)
    (args : List (String × Json)) (now : Nat) (r : RemoteResponse) (raw : String)
    (hauth : st.isAuthenticated = true) :
    (callProcessor st ns action args now (HttpOutcome.ok (RespData.parsed r))
      = (Except.ok
          { success := match r.success with | some v => v | none => Json.bool true
            message := r.message
            data := match r.data with
                    | some v => some v
                    | none =>
                      match r.object with
                      | some o => if o.truthy then some o else r.results
                      | none => r.results
            errors := r.errors
            object := r.object
            results := r.results
            extra := r.extra },
         touchActivity st now))
    ∧ callProcessor st ns action args now (HttpOutcome.ok (RespData.stringJson r raw))
      = callProcessor st ns action args now (HttpOutcome.ok (RespData.parsed r))
    ∧ callProcessor st ns action args now (HttpOutcome.ok (RespData.stringInvalid raw))
      = (Except.ok
          { success := Json.bool true, message := none,
            data := some (Json.str raw), errors := none, object := none,
            results := none, extra := [("raw", Json.bool true)] },
         touchActivity st now) := by
  refine ⟨?_, ?_, ?_⟩ <;> simp [callProcessor, hauth, normalizeResult]

/-- C6 (witness): `c6_amended` applied to the concrete authenticated
state and a response whose `data` is absent and whose `object` is
populated. -/
theorem c6_witness :
    callProcessor authState "core" "resource/getlist" [] 1
      (HttpOutcome.ok (RespData.parsed
        { success := some (Json.bool true), message := none, data := none,
          errors := none, object := some (Json.obj [("id", Json.num 1)]),
          results := none, extra := [] }))
      = (Except.ok
          { success := Json.bool true, message := none,
            data := some (Json.obj [("id", Json.num 1)]), errors := none,
            object := some (Json.obj [("id", Json.num 1)]), results := none,
            extra := [] },
         touchActivity authState 1) :=
  (c6_amended authState "core" "resource/getlist" [] 1
    { success := some (Json.bool true), message := none, data := none,
      errors := none, object := some (Json.obj [("id", Json.num 1)]),
      results := none, extra := [] } "" rfl).1

/-! ## C9 -/

/-- C9: before any login (unauthenticated snapshot) `tools/list` yields
exactly the fixed session-info tool with no remote call and no state
change; in an authenticated session with N cached descriptors it yields
the fixed tool followed by one generated tool per descriptor in cache
order (N+1 tools); and on discovery failure it degrades to the fixed
tool alone. -/
theorem c9_listTools :
    ((initialState "http://localhost" "/connectors/" "/manager/").sessionInfo.isAuthenticated
      = false)
    ∧ (∀ (svc : ServiceState) (pc : Option (List ProcessorInfo)) (now : Nat)
        (http : HttpOutcome DiscoveryBody),
      (getSessionInfo svc).isAuthenticated = false →
      getAllTools svc pc now http = ([sessionInfoTool], pc, svc))
    ∧ (∀ (svc : ServiceState) (procs : List ProcessorInfo) (now : Nat)
        (http : HttpOutcome DiscoveryBody),
      (getSessionInfo svc).isAuthenticated = true →
      getAllTools svc (some procs) now http
        = (sessionInfoTool :: procs.map createProcessorTool, some procs, svc)
      ∧ (sessionInfoTool :: procs.map createProcessorTool).length
        = procs.length + 1)
    ∧ (∀ (svc : ServiceState) (now : Nat) (http : HttpOutcome DiscoveryBody)
        (e : String) (svc' : ServiceState),
      (getSessionInfo svc).isAuthenticated = true →
      getProcessors svc false now http = (Except.error e, svc') →
      getAllTools svc none now http = ([sessionInfoTool], none, svc')) := by
  refine ⟨rfl, ?_, ?_, ?_⟩
  · intro svc pc now http h
    simp [getAllTools, h]
  · intro svc procs now http h
    constructor
    · simp [getAllTools, h]
    · simp
  · intro svc now http e svc' h hgp
    simp [getAllTools, h, hgp]

/-- C9 (witness): `c9_listTools` applied to the initial state (one tool,
untouched state), to an authenticated state with a one-element cache
(two tools), and to an authenticated cacheless state whose discovery
call fails over the network (one tool). -/
theorem c9_witness :
    getAllTools (initialState "http://localhost" "/connectors/" "/manager/") none 0
        (HttpOutcome.axiosError none "down")
      = ([sessionInfoTool], none, initialState "http://localhost" "/connectors/" "/manager/")
    ∧ getAllTools authState (some [procA]) 0 (HttpOutcome.axiosError none "down")
      = (sessionInfoTool :: [procA].map createProcessorTool, some [procA], authState)
    ∧ getAllTools authState none 0 (HttpOutcome.axiosError none "down")
      = ([sessionInfoTool], none, touchActivity authState 0) :=
  ⟨c9_listTools.2.1 (initialState "http://localhost" "/connectors/" "/manager/")
      none 0 (HttpOutcome.axiosError none "down") rfl,
   (c9_listTools.2.2.1 authState [procA] 0 (HttpOutcome.axiosError none "down") rfl).1,
   c9_listTools.2.2.2 authState 0 (HttpOutcome.axiosError none "down")
     "HTTP error undefined: down" (touchActivity authState 0) rfl rfl⟩

/-! ## C10 -/

/-- C10: the dispatcher-level `processorsCache` is write-once: a
`tools/list` served from an existing snapshot changes nothing (its tools
are computed from that first snapshot whatever the Session Client state
has become); when the cache is empty it is either left empty or assigned
the processors of one successful discovery; and `tools/call` handling
never writes the cache at all. -/
theorem c10_dispatcher_cache :
    (∀ (st : ServerState) (l : List ProcessorInfo) (now : Nat)
        (http : HttpOutcome DiscoveryBody),
      st.processorsCache = some l →
      (handleListTools st now http).2 = st
      ∧ (handleListTools st now http).1
        = (if (getSessionInfo st.svc).isAuthenticated
           then sessionInfoTool :: l.map createProcessorTool
           else [sessionInfoTool]))
    ∧ (∀ (st : ServerState) (now : Nat) (http : HttpOutcome DiscoveryBody),
      st.processorsCache = none →
      (handleListTools st now http).2.processorsCache = none
      ∨ ∃ pl svc', getProcessors st.svc false now http = (Except.ok pl, svc')
          ∧ (handleListTools st now http).2
            = { svc := svc', processorsCache := some pl.processors })
    ∧ (∀ (st : ServerState) (name : String) (args : List (String × Json))
        (now : Nat) (http : HttpOutcome RemoteResponse),
      (handleCallTool st name args now http).2.processorsCache
        = st.processorsCache) := by
  refine ⟨?_, ?_, ?_⟩
  · intro st l now http hc
    obtain ⟨svc, pc⟩ := st
    simp only at hc
    subst hc
    by_cases h : (getSessionInfo svc).isAuthenticated = true
    · constructor
      · simp [handleListTools, getAllTools, h]
      · simp [handleListTools, getAllTools, h]
    · replace h : (getSessionInfo svc).isAuthenticated = false := by simpa using h
      constructor
      · simp [handleListTools, getAllTools, h]
      · simp [handleListTools, getAllTools, h]
  · intro st now http hc
    by_cases h : (getSessionInfo st.svc).isAuthenticated = true
    · rcases hgp : getProcessors st.svc false now http with ⟨res, svc'⟩
      cases res with
      | ok pl =>
        right
        exact ⟨pl, svc', rfl, by simp [handleListTools, getAllTools, h, hc, hgp]⟩
      | error e =>
        left
        simp [handleListTools, getAllTools, h, hc, hgp]
    · replace h : (getSessionInfo st.svc).isAuthenticated = false := by simpa using h
      left
      simp [handleListTools, getAllTools, h, hc]
  · intro st name args now http
    unfold handleCallTool
    by_cases h1 : (name == "modx_get_session_info") = true
    · simp [h1]
    · simp only [h1, Bool.false_eq_true, if_false]
      by_cases h2 : jsStartsWith name "modx_" = true
      · simp only [h2, if_true]
        rcases hl : toolNameToProcessor st.processorsCache name with _ | ⟨ns, action⟩
        · simp [hl]
        · simp only [hl]
          rcases hcp : callProcessor st.svc ns action args now http with ⟨res, svc'⟩
          cases res <;> simp [hcp]
      · replace h2 : jsStartsWith name "modx_" = false := by simpa using h2
        simp [h2]

/-- C10 (witness): `c10_dispatcher_cache` applied to a server state
whose cache already holds one descriptor: a further `tools/list` leaves
the whole state unchanged, and a `tools/call` leaves the cache in place. -/
theorem c10_witness :
    (handleListTools
        { svc := authState, processorsCache := some [procA] } 0
        (HttpOutcome.axiosError none "down")).2
      = { svc := authState, processorsCache := some [procA] }
    ∧ (handleCallTool
        { svc := authState, processorsCache := some [procA] }
        "modx_core_resource_getlist" [] 0
        (HttpOutcome.axiosError (some 401) "Unauthorized")).2.processorsCache
      = some [procA] :=
  ⟨(c10_dispatcher_cache.1
      { svc := authState, processorsCache := some [procA] } [procA] 0
      (HttpOutcome.axiosError none "down") rfl).1,
   c10_dispatcher_cache.2.2
      { svc := authState, processorsCache := some [procA] }
      "modx_core_resource_getlist" [] 0
      (HttpOutcome.axiosError (some 401) "Unauthorized")⟩

end ModxProxy
